import Mathlib

/-!
Verification of the ZaraLive transcript-logging core (src/transcript-logger.js).

The module is shallowly embedded: network I/O is represented by passing the
outcome of each HTTP exchange (response status and body, or a transport error)
as an explicit argument, and the mutable per-instance metrics object is
threaded as explicit state.  Platform text renderings that no property here
depends on (the ISO-8601 rendering of a Date, JSON.stringify of the payload
object, encodeURIComponent of the selector) are kept as the underlying data
rather than as strings.  JavaScript falsy-defaulting (x || d) is modelled
explicitly, including the empty-string and zero falsy cases.
-/

namespace ZaraLive

/-- Recognized optional sub-object of metadata carrying a complexity level
(accessed in the source as metadata?.vocabularyComplexity?.level). -/
structure Complexity where
  level : Option String
  deriving DecidableEq

/-- Recognized optional sub-fields of a transcript's metadata object. -/
structure Metadata where
  safetyFlags : Option (List String)
  vocabularyComplexity : Option Complexity
  grammarComplexity : Option Complexity
  turnDuration : Option Nat
  messageId : Option String
  deriving DecidableEq

/-- Recognized optional sub-fields of a transcript's context object. -/
structure Context where
  conversationFlow : Option String
  userIntent : Option String
  deriving DecidableEq

/-- A transcript event as consumed by logTranscript (see the doc block of
logTranscript in the source): sessionId, turnNumber, timestamp, messageType,
content, metadata, context.  The timestamp is the caller-supplied numeric
event time. -/
structure Transcript where
  sessionId : String
  turnNumber : Nat
  timestamp : Nat
  messageType : String
  content : Option String
  metadata : Option Metadata
  context : Option Context
  deriving DecidableEq

/-- In-process metrics object created in the constructor. -/
structure Metrics where
  transcriptEntriesTotal : Nat
  transcriptErrorsTotal : Nat
  lastTranscriptTimestamp : Option Nat
  deriving DecidableEq

/-- A TranscriptLogger instance: configuration plus its own metrics state. -/
structure Logger where
  lokiEndpoint : String
  serviceName : String
  enabled : Bool
  metrics : Metrics
  deriving DecidableEq

/-- JavaScript string defaulting x || d: undefined or the empty string
(both falsy) fall back to the default. -/
def jsOrStr (x : Option String) (d : String) : String :=
  match x with
  | some s => if s = "" then d else s
  | none => d

/-- JavaScript numeric defaulting x || d: undefined or 0 (both falsy)
fall back to the default. -/
def jsOrNat (x : Option Nat) (d : Nat) : Nat :=
  match x with
  | some n => if n = 0 then d else n
  | none => d

/-- Constructor of TranscriptLogger: defaults for lokiEndpoint and
serviceName via ||, enabled is (options.enabled !== false), metrics zeroed
with no last timestamp. -/
def mkLogger (lokiEndpoint serviceName : Option String) (enabled : Option Bool) : Logger :=
  { lokiEndpoint := jsOrStr lokiEndpoint "http://localhost:3100"
    serviceName := jsOrStr serviceName "zaralive-transcripts"
    enabled := enabled ≠ some false
    metrics :=
      { transcriptEntriesTotal := 0
        transcriptErrorsTotal := 0
        lastTranscriptTimestamp := none } }

/-- The fixed label set of the single stream built by prepareLogEntry. -/
structure StreamLabels where
  job : String
  session_id : String
  message_type : String
  turn_number : String
  content_length : String
  safety_flags : String
  vocabulary_complexity : String
  grammar_complexity : String
  conversation_flow : String
  user_intent : String
  deriving DecidableEq

/-- The structured payload object that the source passes to JSON.stringify
as the log line.  The ISO-8601 text of new Date(timestamp) is represented by
the underlying numeric timestamp (field timestampDate); no property proved
here depends on the textual rendering. -/
structure Payload where
  timestampDate : Nat
  level : String
  message : String
  sessionId : String
  turnNumber : Nat
  messageType : String
  content : Option String
  metadata : Option Metadata
  context : Option Context
  contentLength : Nat
  safetyFlags : List String
  vocabularyComplexity : String
  grammarComplexity : String
  turnDuration : Nat
  messageId : String
  deriving DecidableEq

/-- One stream of a Loki push body: a label set plus timestamp/line pairs.
The first component of each value pair is the timestamp string handed to
Loki; the second is the payload object (stringified on the wire). -/
structure StreamEntry where
  stream : StreamLabels
  values : List (String × Payload)
  deriving DecidableEq

/-- The push request body: an array of streams. -/
structure LogEntry where
  streams : List StreamEntry
  deriving DecidableEq

/-- The safetyFlags array resolved by prepareLogEntry:
transcript.metadata?.safetyFlags || [] (an array is always truthy, so only
an absent field falls back to the empty array). -/
def resolvedSafetyFlags (t : Transcript) : List String :=
  (t.metadata.bind (·.safetyFlags)).getD []

/-- prepareLogEntry: pure transformation of a transcript into the Loki push
body, one stream with one value pair.  The timestamp handed to Loki is
(transcript.timestamp * 1000000).toString(). -/
def prepareLogEntry (logger : Logger) (t : Transcript) : LogEntry :=
  let safetyFlags := resolvedSafetyFlags t
  let safetyFlagsStr := if safetyFlags.length > 0 then String.intercalate "," safetyFlags else "none"
  let vocabComplexity := jsOrStr ((t.metadata.bind (·.vocabularyComplexity)).bind (·.level)) "unknown"
  let grammarComplexity := jsOrStr ((t.metadata.bind (·.grammarComplexity)).bind (·.level)) "unknown"
  let contentLength := jsOrNat (t.content.map String.length) 0
  { streams :=
      [ { stream :=
            { job := logger.serviceName
              session_id := t.sessionId
              message_type := t.messageType
              turn_number := toString t.turnNumber
              content_length := toString contentLength
              safety_flags := safetyFlagsStr
              vocabulary_complexity := vocabComplexity
              grammar_complexity := grammarComplexity
              conversation_flow := jsOrStr (t.context.bind (·.conversationFlow)) "unknown"
              user_intent := jsOrStr (t.context.bind (·.userIntent)) "unknown" }
          values :=
            [ (toString (t.timestamp * 1000000),
               { timestampDate := t.timestamp
                 level := "info"
                 message := "Transcript recorded"
                 sessionId := t.sessionId
                 turnNumber := t.turnNumber
                 messageType := t.messageType
                 content := t.content
                 metadata := t.metadata
                 context := t.context
                 contentLength := contentLength
                 safetyFlags := safetyFlags
                 vocabularyComplexity := vocabComplexity
                 grammarComplexity := grammarComplexity
                 turnDuration := jsOrNat (t.metadata.bind (·.turnDuration)) 0
                 messageId := jsOrStr (t.metadata.bind (·.messageId)) "unknown" }) ] } ] }

/-- Outcome of one HTTP push exchange with Loki, as observed by the
callbacks in sendToLoki: a response with its status code and accumulated
body, or a request error before a response was obtained. -/
inductive HttpOutcome where
  | response (statusCode : Nat) (data : String)
  | transportError (message : String)
  deriving DecidableEq

/-- Errors with which sendToLoki rejects: a non-2xx response (carrying the
status code and body of the rejection message) or a transport failure. -/
inductive SendError where
  | lokiStatus (statusCode : Nat) (data : String)
  | transport (message : String)
  deriving DecidableEq

/-- The message of the Error object sendToLoki rejects with. -/
def SendError.message : SendError → String
  | .lokiStatus s d => "Loki responded with status " ++ toString s ++ ": " ++ d
  | .transport m => "Failed to send to Loki: " ++ m

/-- sendToLoki response handling: resolve with the body on a status in
[200, 300); reject carrying status and body otherwise; reject on a request
error. -/
def sendToLoki (outcome : HttpOutcome) : Except SendError String :=
  match outcome with
  | .response s d => if 200 ≤ s ∧ s < 300 then .ok d else .error (.lokiStatus s d)
  | .transportError m => .error (.transport m)

/-- Status argument of updateMetrics. -/
inductive LogStatus where
  | success
  | error
  deriving DecidableEq

/-- updateMetrics: on success increment transcriptEntriesTotal and set
lastTranscriptTimestamp to Date.now(); otherwise increment
transcriptErrorsTotal. -/
def updateMetrics (m : Metrics) (status : LogStatus) (now : Nat) : Metrics :=
  match status with
  | .success =>
      { m with
        transcriptEntriesTotal := m.transcriptEntriesTotal + 1
        lastTranscriptTimestamp := some now }
  | .error =>
      { m with transcriptErrorsTotal := m.transcriptErrorsTotal + 1 }

/-- logTranscript: when disabled, return at once (no request, success,
metrics untouched).  Otherwise build the log entry, send it, and update the
metrics with the outcome; failures are re-thrown to the caller.  The middle
component is the push request transmitted to Loki (none when no network
call is made); now stands for Date.now() at metric-update time. -/
def logTranscript (logger : Logger) (t : Transcript) (outcome : HttpOutcome) (now : Nat) :
    Logger × Option LogEntry × Except SendError Unit :=
  if logger.enabled = false then
    (logger, none, .ok ())
  else
    let logEntry := prepareLogEntry logger t
    match sendToLoki outcome with
    | .ok _ =>
        ({ logger with metrics := updateMetrics logger.metrics .success now },
         some logEntry, .ok ())
    | .error e =>
        ({ logger with metrics := updateMetrics logger.metrics .error now },
         some logEntry, .error e)

/-- getMetrics: point-in-time snapshot of the instance's counters under
their exported names. -/
structure MetricsSnapshot where
  transcript_entries_total : Nat
  transcript_errors_total : Nat
  last_transcript_timestamp : Option Nat
  deriving DecidableEq

/-- getMetrics reads this instance's metrics object. -/
def getMetrics (logger : Logger) : MetricsSnapshot :=
  { transcript_entries_total := logger.metrics.transcriptEntriesTotal
    transcript_errors_total := logger.metrics.transcriptErrorsTotal
    last_transcript_timestamp := logger.metrics.lastTranscriptTimestamp }

/-- One item of a batch: the transcript plus this iteration's HTTP outcome
and Date.now() value. -/
structure BatchItem where
  transcript : Transcript
  outcome : HttpOutcome
  now : Nat
  deriving DecidableEq

/-- Per-record status stored by logTranscripts: success, or error with the
caught Error's message. -/
inductive BatchStatus where
  | success
  | error (message : String)
  deriving DecidableEq

/-- Per-record result object pushed by logTranscripts. -/
structure BatchResult where
  transcript : Transcript
  status : BatchStatus
  deriving DecidableEq

/-- logTranscripts: iterate over the transcripts in order, logging each in
its own try/catch, collecting one result per input. -/
def logTranscripts (logger : Logger) (items : List BatchItem) : Logger × List BatchResult :=
  match items with
  | [] => (logger, [])
  | item :: rest =>
      let step := logTranscript logger item.transcript item.outcome item.now
      let result : BatchResult :=
        match step.2.2 with
        | .ok _ => { transcript := item.transcript, status := .success }
        | .error e => { transcript := item.transcript, status := .error e.message }
      let next := logTranscripts step.1 rest
      (next.1, result :: next.2)

/-- JSON values, as produced by JSON.parse on a response body. -/
inductive Json where
  | null
  | bool (b : Bool)
  | num (n : Int)
  | str (s : String)
  | arr (elements : List Json)
  | obj (fields : List (String × Json))

/-- Property access j.f with optional chaining: defined on objects,
undefined elsewhere. -/
def Json.getField : Json → String → Option Json
  | .obj fields, key => fields.lookup key
  | _, _ => none

/-- Index access j[i] with optional chaining: defined on arrays, undefined
elsewhere. -/
def Json.atIndex : Json → Nat → Option Json
  | .arr elements, i => elements.get? i
  | _, _ => none

/-- The .length property: arrays and strings have one, other values give
undefined. -/
def Json.lengthOf : Json → Option Nat
  | .arr elements => some elements.length
  | .str s => some s.length
  | _ => none

/-- Outcome of one HTTP query exchange: a response with its status code and
the result of JSON.parse on its body (ok with the parsed value, or error
with the parse failure message), or a request error. -/
inductive QueryOutcome where
  | response (statusCode : Nat) (parsed : Except String Json)
  | transportError (message : String)

/-- Errors with which searchTranscripts rejects. -/
inductive SearchError where
  | queryError (message : String)
  | parseError (message : String)
  deriving DecidableEq

/-- The query_range request URL parameters built by searchTranscripts.  The
selector is carried verbatim (encodeURIComponent is an injective transport
encoding undone by the server; its text is not modelled). -/
structure QueryRequest where
  queryParam : String
  startParam : Nat
  endParam : Nat
  deriving DecidableEq

/-- searchTranscripts: default start to Date.now() minus 24h and end to
Date.now() via ||, multiply both by 1000000 into the URL, and resolve with
whatever the response body parses to - the response status code is never
inspected; reject with a parse error when JSON.parse throws, and with a
query error on transport failure. -/
def searchTranscripts (query : String) (startTime endTime : Option Nat) (now : Nat)
    (outcome : QueryOutcome) : QueryRequest × Except SearchError Json :=
  let start := jsOrNat startTime (now - 24 * 60 * 60 * 1000)
  let endV := jsOrNat endTime now
  let req : QueryRequest :=
    { queryParam := query, startParam := start * 1000000, endParam := endV * 1000000 }
  match outcome with
  | .response _ (.ok parsedBody) => (req, .ok parsedBody)
  | .response _ (.error m) => (req, .error (.parseError ("Failed to parse Loki response: " ++ m)))
  | .transportError m => (req, .error (.queryError ("Failed to query Loki: " ++ m)))

/-- The stats object returned by getTranscriptStats.  The ISO-8601 strings
rendered from the window bounds are represented by the underlying numeric
bounds. -/
structure TranscriptStats where
  timeRange : String
  userMessages : Nat
  zaraMessages : Nat
  totalMessages : Nat
  startTimeDate : Nat
  endTimeDate : Nat
  deriving DecidableEq

/-- The named-window durations of getTranscriptStats, with the default
branch falling back to the 1h duration. -/
def windowDuration (timeRange : String) : Nat :=
  if timeRange = "1h" then 60 * 60 * 1000
  else if timeRange = "24h" then 24 * 60 * 60 * 1000
  else if timeRange = "7d" then 7 * 24 * 60 * 60 * 1000
  else 60 * 60 * 1000

/-- The selector string built by getTranscriptStats for one message type:
these braces and quotes are literal text of the LogQL selector. -/
def statsQuery (serviceName messageType : String) : String :=
  "\x7bjob=\"" ++ serviceName ++ "\", message_type=\"" ++ messageType ++ "\"\x7d"

/-- The chained access logs.data?.result?.[0]?.values?.length || 0 used on
each query result: the number of values of the first returned stream. -/
def firstStreamValueCount (logs : Json) : Nat :=
  (((((logs.getField "data").bind (·.getField "result")).bind
      (·.atIndex 0)).bind (·.getField "values")).bind Json.lengthOf).getD 0

/-- getTranscriptStats: resolve the window from the named range, run the
user and zara queries over it, and return the message counts; any query
failure is caught and null is returned.  now stands for Date.now(). -/
def getTranscriptStats (logger : Logger) (timeRange : String) (now : Nat)
    (userOutcome zaraOutcome : QueryOutcome) : Option TranscriptStats :=
  let endV := now
  let start := endV - windowDuration timeRange
  let userQuery := statsQuery logger.serviceName "user"
  let zaraQuery := statsQuery logger.serviceName "zara"
  let userRes := (searchTranscripts userQuery (some start) (some endV) now userOutcome).2
  let zaraRes := (searchTranscripts zaraQuery (some start) (some endV) now zaraOutcome).2
  match userRes, zaraRes with
  | .ok userLogs, .ok zaraLogs =>
      some
        { timeRange := timeRange
          userMessages := firstStreamValueCount userLogs
          zaraMessages := firstStreamValueCount zaraLogs
          totalMessages := firstStreamValueCount userLogs + firstStreamValueCount zaraLogs
          startTimeDate := start
          endTimeDate := endV }
  | _, _ => none

/-- Spec-side comparison definition, following the spec's words for the
statistics aggregator: the number of log values returned for a category is
counted across ALL streams the query returns for it (sum over every stream
of its values length), not just the first. -/
def specCategoryValueCount (logs : Json) : Nat :=
  match (logs.getField "data").bind (·.getField "result") with
  | some (.arr streams) =>
      (streams.map (fun s => ((s.getField "values").bind Json.lengthOf).getD 0)).sum
  | _ => 0

/-- A logger built with all constructor defaults (enabled). -/
def exLogger : Logger := mkLogger none none none

/-- A logger built with the enabled toggle off. -/
def disabledLogger : Logger := mkLogger none none (some false)

/-- The example transcript of the module's usage block, with the example
timestamp of the repository documentation. -/
def exTranscript : Transcript :=
  { sessionId := "example-session-123"
    turnNumber := 1
    timestamp := 1705312200
    messageType := "user"
    content := some "Hello, this is a test transcript"
    metadata := some
      { safetyFlags := none
        vocabularyComplexity := none
        grammarComplexity := none
        turnDuration := some 1500
        messageId := some "msg_example_123" }
    context := some
      { conversationFlow := some "start"
        userIntent := some "greeting" } }

/-- A structurally valid transcript with no metadata and no context. -/
def bareTranscript : Transcript :=
  { sessionId := "s1"
    turnNumber := 2
    timestamp := 1000
    messageType := "user"
    content := some "hi"
    metadata := none
    context := none }

/-- A transcript whose single safety flag is the literal string none. -/
def flagNoneTranscript : Transcript :=
  { sessionId := "s2"
    turnNumber := 0
    timestamp := 5
    messageType := "user"
    content := none
    metadata := some
      { safetyFlags := some ["none"]
        vocabularyComplexity := none
        grammarComplexity := none
        turnDuration := none
        messageId := none }
    context := none }

/-- A batch of three push attempts where only the second is rejected by the
backend. -/
def batch3 : List BatchItem :=
  [ { transcript := bareTranscript, outcome := .response 204 "", now := 11 }
  , { transcript := { bareTranscript with turnNumber := 3 }, outcome := .response 400 "bad request", now := 12 }
  , { transcript := { bareTranscript with turnNumber := 4 }, outcome := .response 204 "", now := 13 } ]

/-- A query response body whose result holds two streams with one log value
each. -/
def twoStreamResult : Json :=
  .obj
    [ ("data", .obj
        [ ("result", .arr
            [ .obj [("stream", .obj [("session_id", .str "a")]),
                    ("values", .arr [.arr [.str "1", .str "line1"]])]
            , .obj [("stream", .obj [("session_id", .str "b")]),
                    ("values", .arr [.arr [.str "2", .str "line2"]])] ]) ]) ]

/-- A query response body whose result holds no streams. -/
def emptyResult : Json := .obj [("data", .obj [("result", .arr [])])]

/-- Two distinct client instances living in one process. -/
structure World where
  a : Logger
  b : Logger

/-- Run a sequence of push operations against instance a only. -/
def pushAllA (w : World) (items : List BatchItem) : World :=
  items.foldl
    (fun w item => { w with a := (logTranscript w.a item.transcript item.outcome item.now).1 }) w

/-- Run a sequence of push operations against instance b only. -/
def pushAllB (w : World) (items : List BatchItem) : World :=
  items.foldl
    (fun w item => { w with b := (logTranscript w.b item.transcript item.outcome item.now).1 }) w

/-! ## Theorems -/

/-- Claim C1, counterexample: the record built from the documented example
event (timestamp 1705312200) carries the wire timestamp string
1705312200000000, which is the timestamp multiplied by 10^6, not the
claimed timestamp multiplied by 10^9 (1705312200000000000). -/
theorem C1_counterexample :
    (prepareLogEntry exLogger exTranscript).streams.map (fun e => e.values.map Prod.fst) =
      [["1705312200000000"]] ∧
    (prepareLogEntry exLogger exTranscript).streams.map (fun e => e.values.map Prod.fst) ≠
      [[toString (1705312200 * 1000000000)]] := by
  refine ⟨rfl, ?_⟩
  decide

/-- Claim C1 (amended): for every event, the record carries a wire
timestamp equal to the event's timestamp multiplied by 10^6 exactly (the
module treats event timestamps as millisecond resolution); an event with
timestamp 1705312200 yields 1705312200000000. -/
theorem C1_timestamp_conversion (logger : Logger) (t : Transcript) :
    (prepareLogEntry logger t).streams.map (fun e => e.values.map Prod.fst) =
      [[toString (t.timestamp * 1000000)]] := rfl

/-- Claim C2, counterexample: a response with non-success status 500 whose
body parses as JSON makes the query resolve successfully with the parsed
body instead of failing with a QueryError. -/
theorem C2_counterexample :
    (searchTranscripts "q" (some 1) (some 2) 3 (.response 500 (.ok (Json.obj [])))).2 =
      .ok (Json.obj []) ∧ ¬(200 ≤ 500 ∧ 500 < 300) := by
  exact ⟨rfl, by decide⟩

/-- Claim C2 (amended): query fails with a QueryError exactly on transport
failure; once any response is received its status is not inspected: the
call fails with a ParseError when the body is not decodable as JSON, and
otherwise resolves with the parsed body (the query-result shape is not
validated). -/
theorem C2_error_classification (q : String) (st et : Option Nat) (now : Nat) :
    (∀ m, (searchTranscripts q st et now (.transportError m)).2 =
        .error (.queryError ("Failed to query Loki: " ++ m))) ∧
    (∀ s m, (searchTranscripts q st et now (.response s (.error m))).2 =
        .error (.parseError ("Failed to parse Loki response: " ++ m))) ∧
    (∀ s v, (searchTranscripts q st et now (.response s (.ok v))).2 = .ok v) :=
  ⟨fun _ => rfl, fun _ _ => rfl, fun _ _ => rfl⟩

/-- Claim C6, counterexample: a caller-supplied start bound of 1000 is
transmitted as 1000000000 (multiplied by 10^6), not 1000000000000
(multiplied by 10^9) as claimed. -/
theorem C6_counterexample :
    (searchTranscripts "q" (some 1000) (some 2000) 0 (.transportError "x")).1.startParam =
      1000 * 1000000 ∧
    (searchTranscripts "q" (some 1000) (some 2000) 0 (.transportError "x")).1.startParam ≠
      1000 * 1000000000 := by
  exact ⟨rfl, by decide⟩

/-- Claim C6 (amended): with bounds omitted the window defaults to end =
now and start = end minus 24 hours (the transmitted start plus 24h in the
wire unit equals the transmitted end), and caller-supplied (nonzero,
millisecond-resolution) bounds are converted by multiplying by 10^6 before
transmission. -/
theorem C6_window_defaults_and_conversion (q : String) (now : Nat) (o : QueryOutcome) :
    (86400000 ≤ now →
      (searchTranscripts q none none now o).1.endParam = now * 1000000 ∧
      (searchTranscripts q none none now o).1.startParam = (now - 86400000) * 1000000 ∧
      (searchTranscripts q none none now o).1.startParam + 86400000 * 1000000 =
        (searchTranscripts q none none now o).1.endParam) ∧
    (∀ st et : Nat, st ≠ 0 → et ≠ 0 →
      (searchTranscripts q (some st) (some et) now o).1.startParam = st * 1000000 ∧
      (searchTranscripts q (some st) (some et) now o).1.endParam = et * 1000000) := by
  constructor
  · intro h
    rcases o with ⟨s, m | v⟩ | m <;>
      exact ⟨rfl, rfl, by simp only [searchTranscripts, jsOrNat]; omega⟩
  · intro st et hst het
    rcases o with ⟨s, m | v⟩ | m <;>
      constructor <;> simp [searchTranscripts, jsOrNat, hst, het]

/-- Claim C6, witness: the amended theorem evaluated at concrete inputs. -/
theorem C6_witness :
    (searchTranscripts "q" none none 100000000 (.transportError "x")).1.endParam =
      100000000 * 1000000 ∧
    (searchTranscripts "q" (some 5) (some 7) 100000000 (.transportError "x")).1.startParam =
      5 * 1000000 :=
  ⟨((C6_window_defaults_and_conversion "q" 100000000 (.transportError "x")).1 (by decide)).1,
   ((C6_window_defaults_and_conversion "q" 100000000 (.transportError "x")).2 5 7
      (by decide) (by decide)).1⟩

/-- Claim C3: if either of the two per-category queries issued by the stats
aggregator fails, getTranscriptStats yields no stats object at all (null),
never a partial count. -/
theorem C3_fail_closed (logger : Logger) (timeRange : String) (now : Nat)
    (userOutcome zaraOutcome : QueryOutcome) (e : SearchError)
    (h : (searchTranscripts (statsQuery logger.serviceName "user")
            (some (now - windowDuration timeRange)) (some now) now userOutcome).2 = .error e ∨
         (searchTranscripts (statsQuery logger.serviceName "zara")
            (some (now - windowDuration timeRange)) (some now) now zaraOutcome).2 = .error e) :
    getTranscriptStats logger timeRange now userOutcome zaraOutcome = none := by
  rcases userOutcome with ⟨s1, m1 | v1⟩ | m1
  · rfl
  · rcases zaraOutcome with ⟨s2, m2 | v2⟩ | m2
    · rfl
    · exfalso
      simp [searchTranscripts] at h
    · rfl
  · rfl

/-- Claim C3, witness: the user query succeeds while the agent-category
query hits a transport failure; the stats call returns null. -/
theorem C3_witness :
    getTranscriptStats exLogger "1h" 1000000000
      (.response 200 (.ok (Json.obj []))) (.transportError "boom") = none :=
  C3_fail_closed exLogger "1h" 1000000000
    (.response 200 (.ok (Json.obj []))) (.transportError "boom")
    (.queryError ("Failed to query Loki: " ++ "boom")) (Or.inr rfl)

/-- Claim C4: logTranscripts attempts every record and returns one outcome
per input record in input order; on a batch of three where the backend
rejects only the second, items one and three report success, item two
reports the rejection, entriesTotal grows by exactly two and errorsTotal by
exactly one. -/
theorem C4_batch_isolation :
    (∀ (logger : Logger) (items : List BatchItem),
      (logTranscripts logger items).2.map (fun r => r.transcript) =
        items.map (fun i => i.transcript)) ∧
    (∀ m : Metrics,
      let logger : Logger :=
        { lokiEndpoint := "http://localhost:3100"
          serviceName := "zaralive-transcripts"
          enabled := true
          metrics := m }
      (logTranscripts logger batch3).2.map (fun r => r.status) =
        [.success, .error "Loki responded with status 400: bad request", .success] ∧
      (logTranscripts logger batch3).1.metrics.transcriptEntriesTotal =
        m.transcriptEntriesTotal + 2 ∧
      (logTranscripts logger batch3).1.metrics.transcriptErrorsTotal =
        m.transcriptErrorsTotal + 1) := by
  constructor
  · intro logger items
    induction items generalizing logger with
    | nil => rfl
    | cons item rest ih =>
      cases hstep : (logTranscript logger item.transcript item.outcome item.now).2.2 <;>
        simp [logTranscripts, hstep, ih]
  · intro m
    exact ⟨rfl, rfl, rfl⟩

/-- Claim C5: on an enabled client, a 2xx response makes the push succeed,
increment entriesTotal and set the last-success timestamp to now; any other
status makes it fail with the error carrying that status and body,
incrementing errorsTotal and leaving entriesTotal untouched; a transport
failure does the same with a transport error. -/
theorem C5_push_outcome (logger : Logger) (t : Transcript) (now : Nat)
    (henabled : logger.enabled = true) :
    (∀ s d, 200 ≤ s → s < 300 →
      logTranscript logger t (.response s d) now =
        ({ logger with metrics :=
            { logger.metrics with
              transcriptEntriesTotal := logger.metrics.transcriptEntriesTotal + 1
              lastTranscriptTimestamp := some now } },
         some (prepareLogEntry logger t), .ok ())) ∧
    (∀ s d, ¬(200 ≤ s ∧ s < 300) →
      logTranscript logger t (.response s d) now =
        ({ logger with metrics :=
            { logger.metrics with
              transcriptErrorsTotal := logger.metrics.transcriptErrorsTotal + 1 } },
         some (prepareLogEntry logger t), .error (.lokiStatus s d))) ∧
    (∀ m, logTranscript logger t (.transportError m) now =
        ({ logger with metrics :=
            { logger.metrics with
              transcriptErrorsTotal := logger.metrics.transcriptErrorsTotal + 1 } },
         some (prepareLogEntry logger t), .error (.transport m))) := by
  refine ⟨?_, ?_, ?_⟩
  · intro s d h1 h2
    have hs : sendToLoki (.response s d) = .ok d := by
      simp [sendToLoki, h1, h2]
    simp [logTranscript, henabled, hs, updateMetrics]
  · intro s d hfail
    have hs : sendToLoki (.response s d) = .error (.lokiStatus s d) := by
      simp only [sendToLoki, if_neg hfail]
    simp [logTranscript, henabled, hs, updateMetrics]
  · intro m
    have hs : sendToLoki (.transportError m) = .error (.transport m) := rfl
    simp [logTranscript, henabled, hs, updateMetrics]

/-- Claim C5, witness: the success clause at a 204 response and the failure
clause at a 400 response, on the default (enabled) logger. -/
theorem C5_witness :
    logTranscript exLogger exTranscript (.response 204 "ok") 42 =
      ({ exLogger with metrics :=
          { exLogger.metrics with
            transcriptEntriesTotal := exLogger.metrics.transcriptEntriesTotal + 1
            lastTranscriptTimestamp := some 42 } },
       some (prepareLogEntry exLogger exTranscript), .ok ()) ∧
    logTranscript exLogger exTranscript (.response 400 "bad") 42 =
      ({ exLogger with metrics :=
          { exLogger.metrics with
            transcriptErrorsTotal := exLogger.metrics.transcriptErrorsTotal + 1 } },
       some (prepareLogEntry exLogger exTranscript), .error (.lokiStatus 400 "bad")) :=
  ⟨(C5_push_outcome exLogger exTranscript 42 rfl).1 204 "ok" (by decide) (by decide),
   (C5_push_outcome exLogger exTranscript 42 rfl).2.1 400 "bad" (by decide)⟩

/-- Claim C7, counterexample: when the user-category query returns two
streams with one log value each, the stats object reports userMessages = 1
(the first stream only), not the claimed total of 2 across all streams. -/
theorem C7_counterexample :
    (getTranscriptStats exLogger "1h" 1000000000
        (.response 200 (.ok twoStreamResult)) (.response 200 (.ok emptyResult))).map
      (fun st => st.userMessages) = some 1 ∧
    specCategoryValueCount twoStreamResult = 2 ∧
    (getTranscriptStats exLogger "1h" 1000000000
        (.response 200 (.ok twoStreamResult)) (.response 200 (.ok emptyResult))).map
      (fun st => st.userMessages) ≠ some (specCategoryValueCount twoStreamResult) := by
  refine ⟨rfl, rfl, ?_⟩
  decide

/-- Claim C7 (amended): whenever both category queries resolve, the stats
object counts for each category the log values of the FIRST stream the
query returned (zero when there is none), and totalCount is the sum of the
two category counts. -/
theorem C7_stats_counts (logger : Logger) (timeRange : String) (now : Nat)
    (s1 s2 : Nat) (userLogs zaraLogs : Json) :
    getTranscriptStats logger timeRange now
        (.response s1 (.ok userLogs)) (.response s2 (.ok zaraLogs)) =
      some
        { timeRange := timeRange
          userMessages := firstStreamValueCount userLogs
          zaraMessages := firstStreamValueCount zaraLogs
          totalMessages := firstStreamValueCount userLogs + firstStreamValueCount zaraLogs
          startTimeDate := now - windowDuration timeRange
          endTimeDate := now } := rfl

/-- Claim C8, counterexample: an event whose safetyFlags list is the
nonempty list containing the single flag none also yields the label value
none, so the label is not the literal none EXACTLY when the list is empty
or absent. -/
theorem C8_counterexample :
    (prepareLogEntry exLogger flagNoneTranscript).streams.map
      (fun e => e.stream.safety_flags) = ["none"] ∧
    resolvedSafetyFlags flagNoneTranscript ≠ [] := by
  exact ⟨rfl, by decide⟩

/-- Claim C8 (amended): an event with no metadata and no context yields the
default labels unknown for both complexities, flow and intent, and none for
safety flags; the safety_flags label is none whenever the safetyFlags list
is empty or absent, and is the comma-join of the flags in input order
otherwise. -/
theorem C8_default_labels (logger : Logger) (t : Transcript) :
    (t.metadata = none → t.context = none →
      (prepareLogEntry logger t).streams.map (fun e => e.stream.vocabulary_complexity) =
        ["unknown"] ∧
      (prepareLogEntry logger t).streams.map (fun e => e.stream.grammar_complexity) =
        ["unknown"] ∧
      (prepareLogEntry logger t).streams.map (fun e => e.stream.conversation_flow) =
        ["unknown"] ∧
      (prepareLogEntry logger t).streams.map (fun e => e.stream.user_intent) =
        ["unknown"] ∧
      (prepareLogEntry logger t).streams.map (fun e => e.stream.safety_flags) =
        ["none"]) ∧
    (resolvedSafetyFlags t = [] →
      (prepareLogEntry logger t).streams.map (fun e => e.stream.safety_flags) = ["none"]) ∧
    (resolvedSafetyFlags t ≠ [] →
      (prepareLogEntry logger t).streams.map (fun e => e.stream.safety_flags) =
        [String.intercalate "," (resolvedSafetyFlags t)]) := by
  refine ⟨?_, ?_, ?_⟩
  · intro hm hc
    refine ⟨?_, ?_, ?_, ?_, ?_⟩ <;>
      simp [prepareLogEntry, resolvedSafetyFlags, jsOrStr, hm, hc]
  · intro h
    simp [prepareLogEntry, h]
  · intro h
    have hlen : 0 < (resolvedSafetyFlags t).length := List.length_pos.mpr h
    simp [prepareLogEntry, hlen]

/-- Claim C8, witness: the amended theorem evaluated on the bare transcript
(no metadata, no context). -/
theorem C8_witness :
    (prepareLogEntry exLogger bareTranscript).streams.map
      (fun e => e.stream.vocabulary_complexity) = ["unknown"] ∧
    (prepareLogEntry exLogger bareTranscript).streams.map
      (fun e => e.stream.safety_flags) = ["none"] :=
  ⟨((C8_default_labels exLogger bareTranscript).1 rfl rfl).1,
   (C8_default_labels exLogger bareTranscript).2.1 rfl⟩

/-- Claim C9: on a disabled client a push performs no network call, returns
success and leaves the logger (metrics included) unchanged. -/
theorem C9_disabled_noop (logger : Logger) (t : Transcript) (outcome : HttpOutcome) (now : Nat)
    (h : logger.enabled = false) :
    logTranscript logger t outcome now = (logger, none, .ok ()) := by
  simp [logTranscript, h]

/-- Claim C9, witness: a push on the disabled logger, with an outcome that
would count as a backend rejection, still succeeds and changes nothing. -/
theorem C9_witness :
    logTranscript disabledLogger exTranscript (.response 500 "boom") 7 =
      (disabledLogger, none, .ok ()) :=
  C9_disabled_noop disabledLogger exTranscript (.response 500 "boom") 7 rfl

/-- Claim C10: metric counters are per-instance state: any sequence of push
operations against one of two client instances leaves the other instance's
metrics snapshot unchanged. -/
theorem C10_instance_isolation (w : World) (items : List BatchItem) :
    getMetrics (pushAllA w items).b = getMetrics w.b ∧
    getMetrics (pushAllB w items).a = getMetrics w.a := by
  have hA : ∀ (items : List BatchItem) (w : World), (pushAllA w items).b = w.b := by
    intro items
    induction items with
    | nil => intro w; rfl
    | cons i rest ih => intro w; exact ih _
  have hB : ∀ (items : List BatchItem) (w : World), (pushAllB w items).a = w.a := by
    intro items
    induction items with
    | nil => intro w; rfl
    | cons i rest ih => intro w; exact ih _
  exact ⟨by rw [hA], by rw [hB]⟩

end ZaraLive
